import Mathlib

/-!
Shallow embedding of google/logger (Go): the multi-sink dispatch and
lifecycle model of `src/logger.go`, the unsupported-platform syslog stub of
`src/logger_other.go`, and the queue-based variant of `src/unnamed/part_000`.

Writers (io.Writer values) are modelled as an inductive of the destinations
that occur in the code: the process error stream, standard output, a
caller-supplied primary sink (with its io.Closer capability recorded, since
`Init` performs a type assertion `logFile.(io.Closer)`), and the two
system-log channels returned by `setup`.  A Go `*log.Logger` is a `LogDest`:
its MultiWriter member list plus its prefix label; the timestamp/call-site
header that the log package inserts between prefix and message is an
external formatting concern and is passed in as an opaque `header` string.
-/

namespace GoogleLogger

/-- An io.Writer destination as it occurs in logger.go.  `custom` is a
caller-supplied writer; `closable` records whether the dynamic type also
satisfies io.Closer (the type assertion in Init). -/
inductive Writer where
  | stderr
  | stdout
  | custom (id : Nat) (closable : Bool)
  | sysInfo (name : String)
  | sysErr (name : String)
deriving DecidableEq, Repr

/-- The io.Closer type assertion `w.(io.Closer)`.  os.Stderr and os.Stdout
are files and do satisfy io.Closer; the syslog channels are modelled as
write-only since Init never tests them. -/
def Writer.isCloser : Writer → Bool
  | .stderr => true
  | .stdout => true
  | .custom _ c => c
  | .sysInfo _ => false
  | .sysErr _ => false

/-- A `*log.Logger`: the member list of the io.MultiWriter it writes to
(insertion order = fan-out order) and its severity prefix label. -/
structure LogDest where
  sinks : List Writer
  label : String
deriving DecidableEq, Repr

/-- One call to `(*log.Logger).Output`: each member sink receives the prefix
label, then the flag-generated header (date, microseconds, short file —
opaque here), then the message text. -/
def emitLines (header : String) (d : LogDest) (txt : String) :
    List (Writer × String) :=
  d.sinks.map fun w => (w, d.label ++ header ++ txt)

/-- Result of the severity router: either a fan-out emission or a Go panic. -/
inductive OutputResult where
  | emitted (lines : List (Writer × String))
  | panicked (msg : String)
deriving DecidableEq, Repr

/-- The Logger struct of logger.go. -/
structure Logger where
  infoLog : LogDest
  errorLog : LogDest
  fatalLog : LogDest
  closers : List Writer
  initialized : Bool
deriving DecidableEq, Repr

/-- severity constants: sInfo = iota, sError, sFatal. -/
def sInfo : Int := 0

def sError : Int := 1

def sFatal : Int := 2

/-- `func (l *Logger) output(s severity, txt string)`: the switch over the
severity selects the per-severity `*log.Logger`; the default branch panics
with fmt.Sprintln("unrecognized severity:", s). -/
def Logger.output (l : Logger) (header : String) (s : Int) (txt : String) :
    OutputResult :=
  if s = sInfo then .emitted (emitLines header l.infoLog txt)
  else if s = sError then .emitted (emitLines header l.errorLog txt)
  else if s = sFatal then .emitted (emitLines header l.fatalLog txt)
  else .panicked ("unrecognized severity: " ++ toString s ++ "\n")

/-- fmt.Sprint over string operands: operands are concatenated and a space
is inserted only between two adjacent non-string operands, hence none here. -/
def sprint (v : List String) : String := String.join v

/-- fmt.Sprintln: a single space between every adjacent pair of operands and
a trailing newline. -/
def sprintln : List String → String
  | [] => "\n"
  | [x] => x ++ "\n"
  | x :: y :: rest => x ++ " " ++ sprintln (y :: rest)

/-! ### Init (src/logger.go) -/

/-- The platform syslog capability: `setup(name)` yields the info channel,
the error channel and an error, each possibly nil. -/
structure SyslogBackend where
  setup : String → Option Writer × Option Writer × Option String

/-- `setup` of logger_other.go: platform without a system-log backend;
every channel is nil and the error is non-nil. -/
def otherSetup (_src : String) : Option Writer × Option Writer × Option String :=
  (none, none, some "system logging not implemented")

def otherBackend : SyslogBackend := ⟨otherSetup⟩

/-- A unix-like backend for exercising the supported-platform path:
setup succeeds and returns the two syslog channels. -/
def unixBackend : SyslogBackend :=
  ⟨fun name => (some (.sysInfo name), some (.sysErr name), none)⟩

/-- Init either returns the built Logger or the process dies via
`log.Fatal(err)`. -/
inductive InitResult where
  | fatalExit (msg : String)
  | ok (l : Logger)
deriving DecidableEq, Repr

/-- The pure core of `func Init(name string, verbose, systemLog bool, logFile
io.Writer) *Logger`: the setup call guarded by systemLog, the `log.Fatal`
on a setup error, the construction of the iLogs and eLogs member lists, the
three log.New calls, the io.Closer type assertion on logFile, and
initialized = true.  The check-and-set on the package-level defaultLogger is
the stateful part, modelled separately by `statefulInit`. -/
def Init (p : SyslogBackend) (name : String) (verbose systemLog : Bool)
    (logFile : Writer) : InitResult :=
  let ile := if systemLog then p.setup name else (none, none, none)
  match ile with
  | (il, el, err) =>
    match err with
    | some e => .fatalExit e
    | none =>
      let iLogs := [logFile]
        ++ (if verbose then [Writer.stdout] else [])
        ++ (match il with | some w => [w] | none => [])
      let eLogs := [logFile, Writer.stderr]
        ++ (match el with | some w => [w] | none => [])
      .ok { infoLog := ⟨iLogs, "INFO: "⟩
            errorLog := ⟨eLogs, "ERROR: "⟩
            fatalLog := ⟨eLogs, "FATAL: "⟩
            closers := if logFile.isCloser then [logFile] else []
            initialized := true }

/-- `func (l *Logger) Infoln`: `l.output(sInfo, fmt.Sprintln(v...))`. -/
def Logger.Infoln (l : Logger) (header : String) (v : List String) :
    OutputResult :=
  l.output header sInfo (sprintln v)

/-- `func (l *Logger) Errorln`: `l.output(sError, fmt.Sprintln(v...))`. -/
def Logger.Errorln (l : Logger) (header : String) (v : List String) :
    OutputResult :=
  l.output header sError (sprintln v)

/-! ### Fatal: write, close, exit (src/logger.go) -/

/-- Observable events of a Fatal call: the output fan-out, one Close per
owned closer (carrying whether that Close succeeded), and os.Exit. -/
inductive Event where
  | write (lines : List (Writer × String))
  | closeRes (w : Writer) (ok : Bool)
  | exited (code : Nat)
deriving DecidableEq, Repr

/-- `for _, c := range l.closers { c.Close() }`: one Close per closer, in
order; the returned error is discarded (`closeOk` is the environment's
answer for each Close). -/
def closeAll (closeOk : Writer → Bool) : List Writer → List Event
  | [] => []
  | c :: rest => .closeRes c (closeOk c) :: closeAll closeOk rest

/-- `func (l *Logger) close()`. -/
def Logger.close (l : Logger) (closeOk : Writer → Bool) : List Event :=
  closeAll closeOk l.closers

/-- The event trace of the common Fatal body: `l.output(sFatal, txt)`,
then `l.close()`, then `os.Exit(1)`. -/
def Logger.fatalSeq (l : Logger) (closeOk : Writer → Bool) (header : String)
    (txt : String) : List Event :=
  (match l.output header sFatal txt with
   | .emitted lines => [Event.write lines]
   | .panicked m => [Event.write [(.stderr, m)]])
  ++ l.close closeOk
  ++ [.exited 1]

/-- `func (l *Logger) Fatal(v ...interface{})`, message via fmt.Sprint. -/
def Logger.Fatal (l : Logger) (closeOk : Writer → Bool) (header : String)
    (v : List String) : List Event :=
  l.fatalSeq closeOk header (sprint v)

/-- `func (l *Logger) Fatalln(v ...interface{})`, message via fmt.Sprintln. -/
def Logger.Fatalln (l : Logger) (closeOk : Writer → Bool) (header : String)
    (v : List String) : List Event :=
  l.fatalSeq closeOk header (sprintln v)

/-- `func (l *Logger) Fatalf(format string, v ...interface{})`: the
fmt.Sprintf verb engine is external; `fmtRes` stands for its result. -/
def Logger.Fatalf (l : Logger) (closeOk : Writer → Bool) (header : String)
    (fmtRes : String) : List Event :=
  l.fatalSeq closeOk header fmtRes

/-- The writers closed along a trace, in order. -/
def closedWriters (tr : List Event) : List Writer :=
  tr.filterMap fun e =>
    match e with
    | .closeRes w _ => some w
    | _ => none

/-! ### Package state: defaultLogger registry (src/logger.go) -/

/-- initText of logger.go. -/
def initText : String := "ERROR: Logging before logger.Init.\n"

/-- The placeholder Logger that `initialize()` stores in defaultLogger at
package init: every severity writes to os.Stderr only, with initText
prepended to the severity prefix; zero-value closers and initialized. -/
def placeholderLogger : Logger :=
  { infoLog := ⟨[.stderr], initText ++ "INFO: "⟩
    errorLog := ⟨[.stderr], initText ++ "ERROR: "⟩
    fatalLog := ⟨[.stderr], initText ++ "FATAL: "⟩
    closers := []
    initialized := false }

/-- A heap-allocated `*Logger`: the allocation id models pointer identity
(`&l` yields a fresh id per Init call). -/
structure Instance where
  id : Nat
  logger : Logger
deriving DecidableEq, Repr

/-- Package-level mutable state: the allocation counter and the
defaultLogger slot (`none` models a nil pointer). -/
structure PkgState where
  nextId : Nat
  defaultLogger : Option Instance
deriving DecidableEq, Repr

/-- `func initialize()`: allocate the placeholder and store it. -/
def initializePkg (s : PkgState) : PkgState :=
  { nextId := s.nextId + 1
    defaultLogger := some ⟨s.nextId, placeholderLogger⟩ }

/-- The state established by `func init()`: package init runs initialize()
on the zero state. -/
def pkgInit : PkgState := initializePkg ⟨0, none⟩

/-- Outcome of a stateful Init call. -/
inductive InitOutcome where
  | fatalExit (msg : String)
  | ok (inst : Instance)
deriving DecidableEq, Repr

/-- Init including the mutex-guarded check-and-set on defaultLogger: build
the Logger (possibly dying in log.Fatal), allocate `&l`, then
`if !defaultLogger.initialized { defaultLogger = &l }`.  Reading
`.initialized` from a nil defaultLogger would be a nil-pointer dereference,
modelled as `none`. -/
def statefulInit (p : SyslogBackend) (name : String)
    (verbose systemLog : Bool) (logFile : Writer) (s : PkgState) :
    Option (InitOutcome × PkgState) :=
  match Init p name verbose systemLog logFile with
  | .fatalExit e => some (.fatalExit e, s)
  | .ok l =>
    match s.defaultLogger with
    | none => none
    | some d =>
      let inst : Instance := ⟨s.nextId, l⟩
      some (.ok inst,
        { nextId := s.nextId + 1
          defaultLogger := some (if d.logger.initialized then d else inst) })

/-- A free-function log call (Info, Error, ... on the package): delegate to
whatever occupies defaultLogger; dereferencing a nil slot is `none`. -/
def freeLog (header : String) (sev : Int) (msg : String) (s : PkgState) :
    Option OutputResult :=
  match s.defaultLogger with
  | none => none
  | some d => some (d.logger.output header sev msg)

/-- The package states reachable after Go package init: pkgInit, then any
sequence of Init calls (free log calls do not change the state). -/
inductive Reachable : PkgState → Prop where
  | base : Reachable pkgInit
  | step (p : SyslogBackend) (name : String) (verbose systemLog : Bool)
      (logFile : Writer) (s s' : PkgState) (out : InitOutcome) :
      Reachable s →
      statefulInit p name verbose systemLog logFile s = some (out, s') →
      Reachable s'

/-! ### Queue-based variant (src/unnamed/part_000) -/

namespace Queue

/-- severityType constants of the queue variant (strings, not ints). -/
def sInfo : String := "Info"

def sError : String := "Error"

def sFatal : String := "Fatal"

/-- The message struct. -/
structure Message where
  sev : String
  msg : String
deriving DecidableEq, Repr

/-- `func (m message) String() string`: fmt.Sprintf of the fixed pattern. -/
def Message.str (m : Message) : String :=
  "[" ++ m.sev ++ "]: " ++ m.msg

/-- One iteration of `func (l *logger) run(w io.Writer)`:
`fmt.Fprintln(w, m.String())` — Fprintln appends a newline after the
message's String form. -/
def runLine (m : Message) : String :=
  m.str ++ "\n"

/-- The logger struct of the queue variant: its pending message queue
(the channel contents, in send order). -/
structure QLogger where
  queue : List Message
deriving DecidableEq, Repr

/-- `func NewLogger(name string, w io.Writer) (*logger, error)`: an empty
name is rejected with the error "null logger name"; otherwise a fresh
logger with an empty queue is returned (the worker goroutine is spawned,
modelled by `runLine` applied per dequeued message). -/
def NewLogger (name : String) (_w : Writer) : Except String QLogger :=
  if name.length = 0 then .error "null logger name"
  else .ok ⟨[]⟩

/-- `func (l *logger) Infoln`: enqueue {sInfo, fmt.Sprintln(v...)}. -/
def QLogger.Infoln (l : QLogger) (v : List String) : QLogger :=
  ⟨l.queue ++ [⟨sInfo, sprintln v⟩]⟩

/-- `func (l *logger) Errorln`: enqueue {sError, fmt.Sprintln(v...)}. -/
def QLogger.Errorln (l : QLogger) (v : List String) : QLogger :=
  ⟨l.queue ++ [⟨sError, sprintln v⟩]⟩

/-- `func (l *logger) Fatalln`: enqueue {sFatal, fmt.Sprintln(v...)}
(then os.Exit(1), outside this queue model). -/
def QLogger.Fatalln (l : QLogger) (v : List String) : QLogger :=
  ⟨l.queue ++ [⟨sFatal, sprintln v⟩]⟩

end Queue

/-! ### Concrete values used by witnesses -/

/-- The Logger built by `Init otherBackend "w9" true false (.custom 9 true)`:
verbose, no system log, closable primary sink. -/
def wit9Logger : Logger :=
  { infoLog := ⟨[.custom 9 true, .stdout], "INFO: "⟩
    errorLog := ⟨[.custom 9 true, .stderr], "ERROR: "⟩
    fatalLog := ⟨[.custom 9 true, .stderr], "FATAL: "⟩
    closers := [.custom 9 true]
    initialized := true }

/-- The Logger built by `Init unixBackend "w3" true true (.custom 3 false)`:
verbose, system log enabled and supported. -/
def wit3Logger : Logger :=
  { infoLog := ⟨[.custom 3 false, .stdout, .sysInfo "w3"], "INFO: "⟩
    errorLog := ⟨[.custom 3 false, .stderr, .sysErr "w3"], "ERROR: "⟩
    fatalLog := ⟨[.custom 3 false, .stderr, .sysErr "w3"], "FATAL: "⟩
    closers := []
    initialized := true }

/-- The Logger built by `Init otherBackend "demo" false false
(.custom 0 true)`. -/
def demoLogger : Logger :=
  { infoLog := ⟨[.custom 0 true], "INFO: "⟩
    errorLog := ⟨[.custom 0 true, .stderr], "ERROR: "⟩
    fatalLog := ⟨[.custom 0 true, .stderr], "FATAL: "⟩
    closers := [.custom 0 true]
    initialized := true }

/-- The instance allocated by the first demo Init call (ids start at 0 for
the placeholder). -/
def demoInst1 : Instance := ⟨1, demoLogger⟩

/-- Package state after the first demo Init call. -/
def demoS1 : PkgState := ⟨2, some demoInst1⟩

/-- The instance allocated by the second demo Init call. -/
def demoInst2 : Instance := ⟨2, demoLogger⟩

/-- Package state after the second demo Init call: the occupant is still
the first instance. -/
def demoS2 : PkgState := ⟨3, some demoInst1⟩

/-! ## Helper lemmas -/

theorem intercalate_go_cons (s : String) :
    ∀ (as : List String) (acc a : String),
      String.intercalate.go acc s (a :: as)
        = acc ++ s ++ String.intercalate.go a s as := by
  intro as
  induction as with
  | nil => intro acc a; rfl
  | cons b bs ih =>
    intro acc a
    show String.intercalate.go (acc ++ s ++ a) s (b :: bs) = _
    rw [ih (acc ++ s ++ a) b, ih a b]
    simp [String.append_assoc]

theorem intercalate_cons₂ (s x y : String) (rest : List String) :
    String.intercalate s (x :: y :: rest)
      = x ++ s ++ String.intercalate s (y :: rest) := by
  show String.intercalate.go x s (y :: rest) = _
  rw [intercalate_go_cons s rest x y]
  rfl

theorem sprintln_eq (v : List String) :
    sprintln v = String.intercalate " " v ++ "\n" := by
  match v with
  | [] => rfl
  | [x] => rfl
  | x :: y :: rest =>
    rw [sprintln, sprintln_eq (y :: rest), intercalate_cons₂]
    simp [String.append_assoc]

theorem length_ne_zero_of_ne_empty (s : String) (h : s ≠ "") : s.length ≠ 0 := by
  intro h0
  apply h
  cases s with
  | mk data =>
    simp [String.length] at h0
    simp [h0]

theorem Init_ok_elim (p : SyslogBackend) (name : String)
    (verbose systemLog : Bool) (logFile : Writer) (l : Logger)
    (h : Init p name verbose systemLog logFile = .ok l) :
    ∃ il el,
      (if systemLog then p.setup name else (none, none, none)) = (il, el, none)
      ∧ l = { infoLog := ⟨[logFile] ++ (if verbose then [Writer.stdout] else [])
                ++ (match il with | some w => [w] | none => []), "INFO: "⟩
              errorLog := ⟨[logFile, Writer.stderr]
                ++ (match el with | some w => [w] | none => []), "ERROR: "⟩
              fatalLog := ⟨[logFile, Writer.stderr]
                ++ (match el with | some w => [w] | none => []), "FATAL: "⟩
              closers := if logFile.isCloser then [logFile] else []
              initialized := true } := by
  unfold Init at h
  rcases ht : (if systemLog then p.setup name else (none, none, none))
    with ⟨il, el, err⟩
  rw [ht] at h
  cases err with
  | some e => simp at h
  | none =>
    simp at h
    exact ⟨il, el, rfl, h.symm⟩

theorem closedWriters_closeAll (f : Writer → Bool) (cs : List Writer) :
    closedWriters (closeAll f cs) = cs := by
  induction cs with
  | nil => rfl
  | cons c rest ih =>
    simp [closeAll, closedWriters, List.filterMap_cons] at *
    exact ih

theorem fatalSeq_eq (l : Logger) (closeOk : Writer → Bool)
    (header txt : String) :
    l.fatalSeq closeOk header txt
      = Event.write (emitLines header l.fatalLog txt)
          :: (closeAll closeOk l.closers ++ [Event.exited 1]) := rfl

theorem trace_getLast (w : Event) (cs : List Event) :
    (w :: (cs ++ [Event.exited 1])).getLast? = some (.exited 1) := by
  have h : w :: (cs ++ [Event.exited 1]) = (w :: cs) ++ [Event.exited 1] := by
    simp
  rw [h, List.getLast?_concat]

theorem Init_ok_initialized (p : SyslogBackend) (name : String)
    (verbose systemLog : Bool) (logFile : Writer) (l : Logger)
    (h : Init p name verbose systemLog logFile = .ok l) :
    l.initialized = true := by
  obtain ⟨il, el, -, hl⟩ := Init_ok_elim p name verbose systemLog logFile l h
  rw [hl]

theorem statefulInit_ok_elim (p : SyslogBackend) (name : String)
    (verbose systemLog : Bool) (logFile : Writer) (s : PkgState)
    (inst : Instance) (s' : PkgState)
    (h : statefulInit p name verbose systemLog logFile s
      = some (.ok inst, s')) :
    ∃ lg d, Init p name verbose systemLog logFile = .ok lg
      ∧ s.defaultLogger = some d
      ∧ inst = ⟨s.nextId, lg⟩
      ∧ s' = ⟨s.nextId + 1,
          some (if d.logger.initialized then d else ⟨s.nextId, lg⟩)⟩ := by
  unfold statefulInit at h
  cases hInit : Init p name verbose systemLog logFile with
  | fatalExit e => rw [hInit] at h; simp at h
  | ok lg =>
    rw [hInit] at h
    cases hd : s.defaultLogger with
    | none => rw [hd] at h; simp at h
    | some d =>
      rw [hd] at h
      simp at h
      exact ⟨lg, d, rfl, rfl, h.1.symm, h.2.symm⟩

theorem reachable_slot (s : PkgState) (h : Reachable s) :
    ∃ d, s.defaultLogger = some d ∧ d.id < s.nextId := by
  induction h with
  | base => exact ⟨⟨0, placeholderLogger⟩, rfl, by decide⟩
  | step p name verbose systemLog logFile s s' out hr heq ih =>
    obtain ⟨d, hd, hlt⟩ := ih
    unfold statefulInit at heq
    cases hInit : Init p name verbose systemLog logFile with
    | fatalExit e =>
      rw [hInit] at heq
      simp at heq
      rw [← heq.2]
      exact ⟨d, hd, hlt⟩
    | ok lg =>
      rw [hInit, hd] at heq
      simp at heq
      rw [← heq.2]
      by_cases hi : d.logger.initialized = true
      · exact ⟨d, by simp [hi], by simpa using Nat.lt_succ_of_lt hlt⟩
      · refine ⟨⟨s.nextId, lg⟩, by simp [hi], by simp⟩

/-! ## Claims -/

/-- C6: the Println-style methods (Infoln, Errorln, Fatalln) build the
message body by joining the operands with exactly one space between every
adjacent pair and a trailing newline appended to the body itself; in the
queue variant the worker's Fprintln adds a structural terminator on top, so
the emitted line ends in two consecutive newlines. -/
theorem println_style_join_and_double_newline (v : List String)
    (l : Logger) (header : String) (q : Queue.QLogger) :
    sprintln v = String.intercalate " " v ++ "\n"
    ∧ Logger.Infoln l header v
        = Logger.output l header sInfo (String.intercalate " " v ++ "\n")
    ∧ Logger.Errorln l header v
        = Logger.output l header sError (String.intercalate " " v ++ "\n")
    ∧ (Queue.QLogger.Infoln q v).queue
        = q.queue ++ [⟨Queue.sInfo, String.intercalate " " v ++ "\n"⟩]
    ∧ (Queue.QLogger.Errorln q v).queue
        = q.queue ++ [⟨Queue.sError, String.intercalate " " v ++ "\n"⟩]
    ∧ (Queue.QLogger.Fatalln q v).queue
        = q.queue ++ [⟨Queue.sFatal, String.intercalate " " v ++ "\n"⟩]
    ∧ (∃ s, Queue.runLine ⟨Queue.sInfo, sprintln v⟩ = s ++ "\n\n")
    ∧ (∃ s, Queue.runLine ⟨Queue.sError, sprintln v⟩ = s ++ "\n\n")
    ∧ (∃ s, Queue.runLine ⟨Queue.sFatal, sprintln v⟩ = s ++ "\n\n") := by
  have hs := sprintln_eq v
  refine ⟨hs, by rw [Logger.Infoln, hs], by rw [Logger.Errorln, hs],
    by rw [Queue.QLogger.Infoln, hs], by rw [Queue.QLogger.Errorln, hs],
    by rw [Queue.QLogger.Fatalln, hs], ?_, ?_, ?_⟩
  · exact ⟨"[" ++ Queue.sInfo ++ "]: " ++ String.intercalate " " v, by
      rw [Queue.runLine, Queue.Message.str, hs]
      rw [show ("\n\n" : String) = "\n" ++ "\n" from rfl]
      simp [String.append_assoc]⟩
  · exact ⟨"[" ++ Queue.sError ++ "]: " ++ String.intercalate " " v, by
      rw [Queue.runLine, Queue.Message.str, hs]
      rw [show ("\n\n" : String) = "\n" ++ "\n" from rfl]
      simp [String.append_assoc]⟩
  · exact ⟨"[" ++ Queue.sFatal ++ "]: " ++ String.intercalate " " v, by
      rw [Queue.runLine, Queue.Message.str, hs]
      rw [show ("\n\n" : String) = "\n" ++ "\n" from rfl]
      simp [String.append_assoc]⟩

/-- C7: the queue-based constructor NewLogger rejects an empty name with an
error and no logger, accepts every non-empty name, while the
direct-dispatch Init does not validate the name at all: with the system log
disabled it succeeds for every name, and its result does not depend on the
name. -/
theorem newLogger_name_validation :
    (∀ w : Writer, Queue.NewLogger "" w = .error "null logger name")
    ∧ (∀ (name : String) (w : Writer), name ≠ "" →
        ∃ q, Queue.NewLogger name w = .ok q)
    ∧ (∀ (p : SyslogBackend) (name : String) (verbose : Bool) (f : Writer),
        ∃ l, Init p name verbose false f = .ok l)
    ∧ (∀ (p : SyslogBackend) (n₁ n₂ : String) (verbose : Bool) (f : Writer),
        Init p n₁ verbose false f = Init p n₂ verbose false f) := by
  refine ⟨fun w => rfl, ?_, ?_, ?_⟩
  · intro name w hne
    refine ⟨⟨[]⟩, ?_⟩
    rw [Queue.NewLogger]
    simp [length_ne_zero_of_ne_empty name hne]
  · intro p name verbose f
    exact ⟨_, rfl⟩
  · intro p n₁ n₂ verbose f
    rfl

/-- C7 witness: concrete empty and non-empty names. -/
theorem newLogger_name_validation_witness :
    Queue.NewLogger "" (.custom 0 false) = .error "null logger name"
    ∧ (∃ q, Queue.NewLogger "app" (.custom 0 false) = .ok q)
    ∧ (∃ l, Init otherBackend "" false false (.custom 0 false) = .ok l) :=
  ⟨newLogger_name_validation.1 (.custom 0 false),
   newLogger_name_validation.2.1 "app" (.custom 0 false) (by decide),
   newLogger_name_validation.2.2.1 otherBackend "" false (.custom 0 false)⟩

/-- C8: the router's output writes to the sink selected by the severity for
the three legal values sInfo, sError, sFatal and never panics there, and
panics for every other severity value. -/
theorem output_dispatch_total (l : Logger) (header txt : String) :
    Logger.output l header sInfo txt = .emitted (emitLines header l.infoLog txt)
    ∧ Logger.output l header sError txt
        = .emitted (emitLines header l.errorLog txt)
    ∧ Logger.output l header sFatal txt
        = .emitted (emitLines header l.fatalLog txt)
    ∧ (∀ s : Int, s ≠ sInfo → s ≠ sError → s ≠ sFatal →
        Logger.output l header s txt
          = .panicked ("unrecognized severity: " ++ toString s ++ "\n")) := by
  refine ⟨rfl, rfl, rfl, ?_⟩
  intro s h0 h1 h2
  simp [Logger.output, h0, h1, h2]

/-- C8 witness: severity 2 dispatches to the fatal sink, severity 7
panics. -/
theorem output_dispatch_total_witness :
    Logger.output placeholderLogger "" sFatal "m"
      = .emitted (emitLines "" placeholderLogger.fatalLog "m")
    ∧ Logger.output placeholderLogger "" 7 "m"
      = .panicked ("unrecognized severity: " ++ toString (7 : Int) ++ "\n") :=
  ⟨(output_dispatch_total placeholderLogger "" "m").2.2.1,
   (output_dispatch_total placeholderLogger "" "m").2.2.2 7
     (by decide) (by decide) (by decide)⟩

/-- C2: Fatal, Fatalln and Fatalf first write the message through the fatal
combined sink, then close every owned closer in order with close failures
ignored (the trace shape is the same for every closeOk oracle), and end
with exit status 1 as the very last event. -/
theorem fatal_write_close_exit_order (l : Logger) (closeOk : Writer → Bool)
    (header : String) (v : List String) (fmtRes : String) :
    l.Fatal closeOk header v
      = Event.write (emitLines header l.fatalLog (sprint v))
          :: (closeAll closeOk l.closers ++ [Event.exited 1])
    ∧ l.Fatalln closeOk header v
      = Event.write (emitLines header l.fatalLog (sprintln v))
          :: (closeAll closeOk l.closers ++ [Event.exited 1])
    ∧ l.Fatalf closeOk header fmtRes
      = Event.write (emitLines header l.fatalLog fmtRes)
          :: (closeAll closeOk l.closers ++ [Event.exited 1])
    ∧ closedWriters (l.Fatal closeOk header v) = l.closers
    ∧ (l.Fatal closeOk header v).getLast? = some (.exited 1)
    ∧ (l.Fatalln closeOk header v).getLast? = some (.exited 1)
    ∧ (l.Fatalf closeOk header fmtRes).getLast? = some (.exited 1) := by
  have h1 : l.Fatal closeOk header v
      = Event.write (emitLines header l.fatalLog (sprint v))
          :: (closeAll closeOk l.closers ++ [Event.exited 1]) :=
    fatalSeq_eq l closeOk header (sprint v)
  have h2 : l.Fatalln closeOk header v
      = Event.write (emitLines header l.fatalLog (sprintln v))
          :: (closeAll closeOk l.closers ++ [Event.exited 1]) :=
    fatalSeq_eq l closeOk header (sprintln v)
  have h3 : l.Fatalf closeOk header fmtRes
      = Event.write (emitLines header l.fatalLog fmtRes)
          :: (closeAll closeOk l.closers ++ [Event.exited 1]) :=
    fatalSeq_eq l closeOk header fmtRes
  refine ⟨h1, h2, h3, ?_, ?_, ?_, ?_⟩
  · rw [h1]
    simp [closedWriters, List.filterMap_cons, List.filterMap_append]
    exact closedWriters_closeAll closeOk l.closers
  · rw [h1]; exact trace_getLast _ _
  · rw [h2]; exact trace_getLast _ _
  · rw [h3]; exact trace_getLast _ _

/-- C9: an Init-built Logger owns at most one closer — exactly the primary
sink when that sink satisfies io.Closer, the empty list otherwise — so a
Fatal call closes the primary sink exactly once, even though that sink is
a member of all three severity sink sets. -/
theorem closers_at_most_primary_once (p : SyslogBackend) (name : String)
    (verbose systemLog : Bool) (logFile : Writer) (l : Logger)
    (closeOk : Writer → Bool) (header : String) (v : List String)
    (hok : Init p name verbose systemLog logFile = .ok l) :
    l.closers.length ≤ 1
    ∧ (logFile.isCloser = true → l.closers = [logFile])
    ∧ (logFile.isCloser = false → l.closers = [])
    ∧ logFile ∈ l.infoLog.sinks
    ∧ logFile ∈ l.errorLog.sinks
    ∧ logFile ∈ l.fatalLog.sinks
    ∧ (logFile.isCloser = true →
        (closedWriters (l.Fatal closeOk header v)).count logFile = 1) := by
  obtain ⟨il, el, -, hl⟩ := Init_ok_elim p name verbose systemLog logFile l hok
  have hcw : closedWriters (l.Fatal closeOk header v) = l.closers := by
    have h1 : l.Fatal closeOk header v
        = Event.write (emitLines header l.fatalLog (sprint v))
            :: (closeAll closeOk l.closers ++ [Event.exited 1]) :=
      fatalSeq_eq l closeOk header (sprint v)
    rw [h1]
    simp [closedWriters, List.filterMap_cons, List.filterMap_append]
    exact closedWriters_closeAll closeOk l.closers
  subst hl
  refine ⟨?_, ?_, ?_, ?_, ?_, ?_, ?_⟩
  · cases hc : logFile.isCloser <;> simp [hc]
  · intro hc; simp [hc]
  · intro hc; simp [hc]
  · simp
  · simp
  · simp
  · intro hc
    rw [hcw]
    simp [hc, List.count_cons]

/-- C9 witness: a closable primary sink. -/
theorem closers_at_most_primary_once_witness :
    ((Init otherBackend "w9" true false (.custom 9 true)
        = InitResult.ok wit9Logger) : Prop)
    ∧ wit9Logger.closers.length ≤ 1
    ∧ ((Writer.custom 9 true).isCloser = true → wit9Logger.closers = [.custom 9 true])
    ∧ ((Writer.custom 9 true).isCloser = true →
        (closedWriters (wit9Logger.Fatal (fun _ => true) "" ["m"])).count
          (.custom 9 true) = 1) := by
  have hok : Init otherBackend "w9" true false (.custom 9 true)
      = InitResult.ok wit9Logger := by decide
  have h := closers_at_most_primary_once otherBackend "w9" true false
    (.custom 9 true) wit9Logger (fun _ => true) "" ["m"] hok
  exact ⟨hok, h.1, h.2.1, h.2.2.2.2.2.2⟩

/-- C3: a successful Init yields an Info sink set of exactly the primary
sink, plus standard output when verbose, plus the system-log info channel
when the system log is enabled (and hence, by success, supported); an Error
sink set of exactly the primary sink, the process error stream, and the
system-log error channel when enabled; and a Fatal sink list identical to
the Error sink list, the two differing only in their severity label. -/
theorem init_sink_sets (p : SyslogBackend) (name : String)
    (verbose systemLog : Bool) (logFile : Writer) (l : Logger)
    (hok : Init p name verbose systemLog logFile = .ok l) :
    (∀ w, w ∈ l.infoLog.sinks ↔
        (w = logFile ∨ (verbose = true ∧ w = .stdout)
         ∨ (systemLog = true ∧ (p.setup name).1 = some w)))
    ∧ (∀ w, w ∈ l.errorLog.sinks ↔
        (w = logFile ∨ w = .stderr
         ∨ (systemLog = true ∧ (p.setup name).2.1 = some w)))
    ∧ l.fatalLog.sinks = l.errorLog.sinks
    ∧ l.infoLog.label = "INFO: "
    ∧ l.errorLog.label = "ERROR: "
    ∧ l.fatalLog.label = "FATAL: " := by
  obtain ⟨il, el, hif, hl⟩ :=
    Init_ok_elim p name verbose systemLog logFile l hok
  subst hl
  cases systemLog with
  | false =>
    simp only [Bool.false_eq_true, if_false] at hif
    injection hif with h1 hrest
    injection hrest with h2 hlast
    subst h1
    subst h2
    refine ⟨?_, ?_, rfl, rfl, rfl, rfl⟩
    · intro w; cases verbose <;> simp
    · intro w; simp
  | true =>
    simp only [if_true] at hif
    have h1 : (p.setup name).1 = il := by rw [hif]
    have h2 : (p.setup name).2.1 = el := by rw [hif]
    refine ⟨?_, ?_, rfl, rfl, rfl, rfl⟩
    · intro w
      rw [h1]
      cases verbose <;> cases il <;> simp <;> tauto
    · intro w
      rw [h2]
      cases el with
      | none => simp
      | some w' => simp; tauto

/-- C3 witness: verbose Init with the system log enabled on a supporting
platform. -/
theorem init_sink_sets_witness :
    ((Init unixBackend "w3" true true (.custom 3 false)
        = InitResult.ok wit3Logger) : Prop)
    ∧ (Writer.sysInfo "w3" ∈ wit3Logger.infoLog.sinks ↔
        (Writer.sysInfo "w3" = .custom 3 false
         ∨ (true = true ∧ Writer.sysInfo "w3" = .stdout)
         ∨ (true = true ∧ (unixBackend.setup "w3").1 = some (.sysInfo "w3"))))
    ∧ wit3Logger.fatalLog.sinks = wit3Logger.errorLog.sinks := by
  have hok : Init unixBackend "w3" true true (.custom 3 false)
      = InitResult.ok wit3Logger := by decide
  have h := init_sink_sets unixBackend "w3" true true (.custom 3 false)
    wit3Logger hok
  exact ⟨hok, h.1 (.sysInfo "w3"), h.2.2.1⟩

/-- C4: requesting the system log on a platform whose setup capability
errors makes Init die in log.Fatal with that error: the process terminates,
no Logger and no recoverable error is handed back; on the stub platform the
error is "system logging not implemented". -/
theorem init_syslog_unsupported_fatal :
    (∀ name, otherBackend.setup name
        = (none, none, some "system logging not implemented"))
    ∧ (∀ (p : SyslogBackend) (name : String) (verbose : Bool)
        (logFile : Writer) (il el : Option Writer) (e : String),
        p.setup name = (il, el, some e) →
        Init p name verbose true logFile = .fatalExit e)
    ∧ (∀ (name : String) (verbose : Bool) (logFile : Writer),
        Init otherBackend name verbose true logFile
          = .fatalExit "system logging not implemented")
    ∧ (∀ (name : String) (verbose : Bool) (logFile : Writer) (l : Logger),
        Init otherBackend name verbose true logFile ≠ .ok l) := by
  refine ⟨fun name => rfl, ?_, fun name verbose logFile => rfl, ?_⟩
  · intro p name verbose logFile il el e h
    simp [Init, h]
  · intro name verbose logFile l
    simp [Init, otherBackend, otherSetup]

/-- C4 witness: the stub platform at a concrete name. -/
theorem init_syslog_unsupported_fatal_witness :
    Init otherBackend "w4" false true (.custom 4 false)
      = .fatalExit "system logging not implemented" :=
  init_syslog_unsupported_fatal.2.1 otherBackend "w4" false (.custom 4 false)
    none none "system logging not implemented" rfl

/-- C1: the check-and-set of Init installs the freshly built Logger in the
defaultLogger slot exactly when the current occupant's initialized flag is
false — so the first Init call from the post-package-init state installs
its result, while every later Init call (occupant initialized) returns a
fresh, fully configured instance distinct from the occupant and leaves the
occupant unchanged. -/
theorem init_default_registry_check_and_set :
    (∀ (p : SyslogBackend) (name : String) (verbose systemLog : Bool)
        (logFile : Writer) (inst : Instance) (s' : PkgState),
        statefulInit p name verbose systemLog logFile pkgInit
            = some (.ok inst, s') →
        s'.defaultLogger = some inst ∧ inst.logger.initialized = true)
    ∧ (∀ (p : SyslogBackend) (name : String) (verbose systemLog : Bool)
        (logFile : Writer) (s : PkgState) (d inst : Instance) (s' : PkgState),
        Reachable s → s.defaultLogger = some d →
        d.logger.initialized = true →
        statefulInit p name verbose systemLog logFile s = some (.ok inst, s') →
        s'.defaultLogger = some d ∧ inst.id ≠ d.id
          ∧ inst.logger.initialized = true)
    ∧ (∀ (p : SyslogBackend) (name : String) (verbose systemLog : Bool)
        (logFile : Writer) (s : PkgState) (d inst : Instance) (s' : PkgState),
        s.defaultLogger = some d →
        d.logger.initialized = false →
        statefulInit p name verbose systemLog logFile s = some (.ok inst, s') →
        s'.defaultLogger = some inst ∧ inst.logger.initialized = true) := by
  have third : ∀ (p : SyslogBackend) (name : String) (verbose systemLog : Bool)
      (logFile : Writer) (s : PkgState) (d inst : Instance) (s' : PkgState),
      s.defaultLogger = some d →
      d.logger.initialized = false →
      statefulInit p name verbose systemLog logFile s = some (.ok inst, s') →
      s'.defaultLogger = some inst ∧ inst.logger.initialized = true := by
    intro p name verbose systemLog logFile s d inst s' hd hinit heq
    obtain ⟨lg, d', hInit, hd', hinst, hs'⟩ :=
      statefulInit_ok_elim p name verbose systemLog logFile s inst s' heq
    have hdd : d' = d := by rw [hd] at hd'; injection hd' with h; exact h.symm
    subst hdd
    have hlg := Init_ok_initialized p name verbose systemLog logFile lg hInit
    subst hinst
    constructor
    · rw [hs']
      simp [hinit]
    · exact hlg
  refine ⟨?_, ?_, third⟩
  · intro p name verbose systemLog logFile inst s' heq
    exact third p name verbose systemLog logFile pkgInit
      ⟨0, placeholderLogger⟩ inst s' rfl rfl heq
  · intro p name verbose systemLog logFile s d inst s' hr hd hinit heq
    obtain ⟨lg, d', hInit, hd', hinst, hs'⟩ :=
      statefulInit_ok_elim p name verbose systemLog logFile s inst s' heq
    have hdd : d' = d := by rw [hd] at hd'; injection hd' with h; exact h.symm
    obtain ⟨d₂, hd₂, hlt⟩ := reachable_slot s hr
    have hdd₂ : d₂ = d := by rw [hd] at hd₂; injection hd₂ with h; exact h.symm
    have hlt' : d.id < s.nextId := hdd₂ ▸ hlt
    have hlg := Init_ok_initialized p name verbose systemLog logFile lg hInit
    refine ⟨?_, ?_, ?_⟩
    · rw [hs', hdd]
      simp [hinit]
    · rw [hinst]
      exact Ne.symm (Nat.ne_of_lt hlt')
    · rw [hinst]
      exact hlg

/-- C1 witness: two concrete Init calls from the post-init state; the first
installs its instance, the second leaves it and returns a distinct id. -/
theorem init_default_registry_check_and_set_witness :
    (demoS1.defaultLogger = some demoInst1
      ∧ demoInst1.logger.initialized = true)
    ∧ (demoS2.defaultLogger = some demoInst1 ∧ demoInst2.id ≠ demoInst1.id
      ∧ demoInst2.logger.initialized = true) := by
  have hreach : Reachable demoS1 :=
    Reachable.step otherBackend "demo" false false (.custom 0 true) pkgInit
      demoS1 (.ok demoInst1) Reachable.base (by decide)
  exact ⟨init_default_registry_check_and_set.1 otherBackend "demo" false false
      (.custom 0 true) demoInst1 demoS1 (by decide),
    init_default_registry_check_and_set.2.1 otherBackend "demo" false false
      (.custom 0 true) demoS1 demoInst1 demoInst2 demoS2 hreach (by decide)
      (by decide) (by decide)⟩

/-- C5: before the first configuration call, every free-function log call
(Info, Error, Fatal severities) emits exactly one line, to the process
error stream only; the line starts with the Logging-before-Init warning
marker and ends with the original message, and the call returns normally
(some emission, never a nil dereference or a panic). -/
theorem pre_init_logging_fallback (header msg : String) :
    (∃ line, freeLog header sInfo msg pkgInit
        = some (.emitted [(Writer.stderr, line)])
      ∧ (∃ b, line = initText ++ b) ∧ (∃ a, line = a ++ msg))
    ∧ (∃ line, freeLog header sError msg pkgInit
        = some (.emitted [(Writer.stderr, line)])
      ∧ (∃ b, line = initText ++ b) ∧ (∃ a, line = a ++ msg))
    ∧ (∃ line, freeLog header sFatal msg pkgInit
        = some (.emitted [(Writer.stderr, line)])
      ∧ (∃ b, line = initText ++ b) ∧ (∃ a, line = a ++ msg)) := by
  refine ⟨⟨initText ++ "INFO: " ++ header ++ msg, rfl,
      ⟨"INFO: " ++ (header ++ msg), by simp [String.append_assoc]⟩,
      ⟨initText ++ "INFO: " ++ header, rfl⟩⟩,
    ⟨initText ++ "ERROR: " ++ header ++ msg, rfl,
      ⟨"ERROR: " ++ (header ++ msg), by simp [String.append_assoc]⟩,
      ⟨initText ++ "ERROR: " ++ header, rfl⟩⟩,
    ⟨initText ++ "FATAL: " ++ header ++ msg, rfl,
      ⟨"FATAL: " ++ (header ++ msg), by simp [String.append_assoc]⟩,
      ⟨initText ++ "FATAL: " ++ header, rfl⟩⟩⟩

/-- C10: every package state reachable after package init has a non-nil
defaultLogger occupant, so every free-function log call finds a target
Logger and never dereferences an empty slot. -/
theorem default_slot_always_occupied (s : PkgState) (h : Reachable s) :
    (∃ d, s.defaultLogger = some d)
    ∧ (∀ (header : String) (sev : Int) (msg : String),
        freeLog header sev msg s ≠ none)
    ∧ (∀ (header msg : String),
        ∃ r, freeLog header sInfo msg s = some r) := by
  obtain ⟨d, hd, -⟩ := reachable_slot s h
  refine ⟨⟨d, hd⟩, ?_, ?_⟩
  · intro header sev msg
    simp [freeLog, hd]
  · intro header msg
    exact ⟨d.logger.output header sInfo msg, by simp [freeLog, hd]⟩

/-- C10 witness: the post-package-init state itself. -/
theorem default_slot_always_occupied_witness :
    (∃ d, pkgInit.defaultLogger = some d)
    ∧ freeLog "" sInfo "m" pkgInit ≠ none := by
  have h := default_slot_always_occupied pkgInit Reachable.base
  exact ⟨h.1, h.2.1 "" sInfo "m"⟩

end GoogleLogger
